import Mathlib

/-!
Shallow embedding of the OpenTherm master-side protocol engine
(src/src/OpenTherm.cpp) and proofs about its frame codec and its
session state machine.

Machine integers are modelled as `Nat` with explicit reductions:
`unsigned long` is 32 bits wide on the target platforms, so every
operation that can exceed 32 bits carries an explicit `% 2 ^ 32`;
the `unsigned int` payload parameter of `buildRequest` is 16 bits
wide (AVR Arduino width, matching the 16-bit payload field of the
frame layout), so it is reduced `% 2 ^ 16` on entry.
-/

namespace OT

/-- Message-kind enumeration of the frame protocol.
Modelled from the spec: the enumeration constants live in the header
OpenTherm.h, which is not part of the sources at hand; the spec lists
them in this order (READ_DATA, WRITE_DATA, INVALID_DATA, RESERVED,
READ_ACK, WRITE_ACK, DATA_INVALID, UNKNOWN_DATA_ID). -/
inductive OpenThermMessageType where
  | READ_DATA
  | WRITE_DATA
  | INVALID_DATA
  | RESERVED
  | READ_ACK
  | WRITE_ACK
  | DATA_INVALID
  | UNKNOWN_DATA_ID
deriving DecidableEq, Repr

/-- Numeric code of a message kind.
Modelled from the spec: the header assigns the default consecutive
enumerator values 0..7 in declaration order; bits 30-28 of a frame
hold this code. -/
def OpenThermMessageType.code : OpenThermMessageType → Nat
  | .READ_DATA => 0
  | .WRITE_DATA => 1
  | .INVALID_DATA => 2
  | .RESERVED => 3
  | .READ_ACK => 4
  | .WRITE_ACK => 5
  | .DATA_INVALID => 6
  | .UNKNOWN_DATA_ID => 7

/-- Inverse of `OpenThermMessageType.code`, the static_cast used by
`getMessageType`. -/
def OpenThermMessageType.ofCode : Nat → OpenThermMessageType
  | 0 => .READ_DATA
  | 1 => .WRITE_DATA
  | 2 => .INVALID_DATA
  | 3 => .RESERVED
  | 4 => .READ_ACK
  | 5 => .WRITE_ACK
  | 6 => .DATA_INVALID
  | _ => .UNKNOWN_DATA_ID

namespace OpenThermMessageID

/-- Data-point identifier of the boiler Status data point.
Modelled from the spec: the OpenThermMessageID enumeration lives in
the header, which is not part of the sources at hand; Status is its
first enumerator, value 0. -/
def Status : Nat := 0

end OpenThermMessageID

/-- Loop body of OpenTherm::parity: counts set bits of `frame` into a
byte accumulator `p` (so the accumulator wraps at 256, as a C `byte`
does), shifting `frame` right until it is zero. The `fuel` argument
makes the recursion structural (so that the kernel can evaluate it):
`frame` halves each iteration, so any `fuel ≥ frame` gives the exact
loop behaviour. -/
def parityLoop (fuel frame p : Nat) : Nat :=
  match fuel with
  | 0 => p
  | fuel + 1 =>
    if frame = 0 then p
    else parityLoop fuel (frame / 2) (if frame % 2 = 1 then (p + 1) % 256 else p)

/-- OpenTherm::parity: odd parity of the population count of `frame`
(the C function returns `p & 1` converted to bool). -/
def parity (frame : Nat) : Bool :=
  decide (parityLoop frame frame 0 &&& 1 ≠ 0)

/-- Fuelled population count, structural for the same reason as
`parityLoop`. -/
def popcountAux (fuel n : Nat) : Nat :=
  match fuel with
  | 0 => 0
  | fuel + 1 => if n = 0 then 0 else n % 2 + popcountAux fuel (n / 2)

/-- Mathematical population count, used to reason about `parity`. -/
def popcount (n : Nat) : Nat :=
  popcountAux n n

/-- OpenTherm::buildRequest. The `data` argument is a C
`unsigned int` (16 bits on the AVR Arduino target), hence the
reduction `% 2 ^ 16` on entry; `id` is the integer value of the
OpenThermMessageID enumerator, cast to the 32-bit `unsigned long`
before the shift, hence the `% 2 ^ 32` on the shifted value. -/
def buildRequest (type : OpenThermMessageType) (id : Nat) (data : Nat) : Nat :=
  let data16 := data % 2 ^ 16
  let request := data16
  let request := if type = OpenThermMessageType.WRITE_DATA then request ||| (1 <<< 28) else request
  let request := request ||| ((id <<< 16) % 2 ^ 32)
  if parity request then request ||| (1 <<< 31) else request

/-- Contribution of the message kind to bit 28 of a built request:
1 for WRITE_DATA, 0 otherwise (reasoning helper for `buildRequest`). -/
def writeBit (type : OpenThermMessageType) : Nat :=
  if type = OpenThermMessageType.WRITE_DATA then 1 else 0

/-- OpenTherm::isValidResponse: even parity over all 32 bits and a
message-kind field equal to READ_ACK or WRITE_ACK. The kind is
extracted as `(response << 1) >> 29` on a 32-bit `unsigned long`. -/
def isValidResponse (response : Nat) : Bool :=
  if parity response then false
  else
    let msgType := ((response <<< 1) % 2 ^ 32) >>> 29
    msgType == OpenThermMessageType.READ_ACK.code || msgType == OpenThermMessageType.WRITE_ACK.code

/-- OpenTherm::getMessageType: bits 30-28 of the frame, cast to the
enumeration. -/
def getMessageType (message : Nat) : OpenThermMessageType :=
  OpenThermMessageType.ofCode ((message >>> 28) &&& 7)

/-- OpenTherm::buildSetBoilerStatusRequest: packs the five enable
flags into bits 0-4, shifts them into the high byte of the payload,
and builds a READ_DATA request for the Status data point. The
intermediate `data` is a 16-bit `unsigned int`. -/
def buildSetBoilerStatusRequest (enableCentralHeating enableHotWater enableCooling enableOutsideTemperatureCompensation enableCentralHeating2 : Bool) : Nat :=
  let data := enableCentralHeating.toNat ||| (enableHotWater.toNat <<< 1) ||| (enableCooling.toNat <<< 2) ||| (enableOutsideTemperatureCompensation.toNat <<< 3) ||| (enableCentralHeating2.toNat <<< 4)
  let data := (data <<< 8) % 2 ^ 16
  buildRequest OpenThermMessageType.READ_DATA OpenThermMessageID.Status data

/-- OpenTherm::isFault: bit 0 of the response. -/
def isFault (response : Nat) : Bool :=
  (response &&& 0x1) != 0

/-- OpenTherm::isCentralHeatingEnabled: bit 1 of the response. -/
def isCentralHeatingEnabled (response : Nat) : Bool :=
  (response &&& 0x2) != 0

/-- OpenTherm::isHotWaterEnabled: bit 2 of the response. -/
def isHotWaterEnabled (response : Nat) : Bool :=
  (response &&& 0x4) != 0

/-- OpenTherm::getUInt: the low 16 bits of the response. -/
def getUInt (response : Nat) : Nat :=
  response &&& 0xffff

/-- OpenTherm::getFloat: signed 8.8 fixed point decoded from the low
16 bits. The float arithmetic of the source is exact here (a value
of at most 16 significant bits divided by 256), so it is modelled by
rational arithmetic. -/
def getFloat (response : Nat) : Rat :=
  let u88 := getUInt response
  if (u88 &&& 0x8000) != 0 then -((65536 - (u88 : Int) : Rat) / 256) else (u88 : Rat) / 256

/-- OpenTherm::getTemperature: the decoded 8.8 fixed-point payload
for a valid response, 0 otherwise. -/
def getTemperature (response : Nat) : Rat :=
  if isValidResponse response then getFloat response else 0

/-- Session state enumeration OpenThermStatus (the spec calls these
UNINITIALIZED, READY, QUIET_PERIOD, SENDING, AWAITING_START,
START_RECEIVED, RECEIVING, FRAME_READY, FRAME_INVALID). -/
inductive OpenThermStatus where
  | NOT_INITIALIZED
  | READY
  | DELAY
  | REQUEST_SENDING
  | RESPONSE_WAITING
  | RESPONSE_START_BIT
  | RESPONSE_RECEIVING
  | RESPONSE_READY
  | RESPONSE_INVALID
deriving DecidableEq, Repr

/-- Exchange outcome enumeration OpenThermResponseStatus. -/
inductive OpenThermResponseStatus where
  | NONE
  | SUCCESS
  | INVALID
  | TIMEOUT
deriving DecidableEq, Repr

/-- Mutable core state of the session: status, response accumulator,
last outcome, last-transition timestamp (microseconds, 32-bit
wrapping clock) and received-bit counter. -/
structure OTState where
  status : OpenThermStatus
  response : Nat
  responseStatus : OpenThermResponseStatus
  responseTimestamp : Nat
  responseBitIndex : Nat
deriving DecidableEq, Repr

/-- Wrapping 32-bit difference `a - b` of two `unsigned long`
microsecond timestamps. -/
def usub32 (a b : Nat) : Nat :=
  (a % 2 ^ 32 + 2 ^ 32 - b % 2 ^ 32) % 2 ^ 32

/-- OpenTherm::handleInterrupt as a pure transition: `newTs` is the
micros() reading and `lineLevel` the digitalRead() reading (true =
HIGH) taken during the invocation. -/
def handleInterrupt (s : OTState) (newTs : Nat) (lineLevel : Bool) : OTState :=
  if s.status = OpenThermStatus.READY then s
  else if s.status = OpenThermStatus.RESPONSE_WAITING then
    if lineLevel then
      { s with status := OpenThermStatus.RESPONSE_START_BIT, responseTimestamp := newTs }
    else
      { s with status := OpenThermStatus.RESPONSE_INVALID, responseTimestamp := newTs }
  else if s.status = OpenThermStatus.RESPONSE_START_BIT then
    if usub32 newTs s.responseTimestamp < 750 ∧ lineLevel = false then
      { s with status := OpenThermStatus.RESPONSE_RECEIVING, responseTimestamp := newTs,
               responseBitIndex := 0 }
    else
      { s with status := OpenThermStatus.RESPONSE_INVALID, responseTimestamp := newTs }
  else if s.status = OpenThermStatus.RESPONSE_RECEIVING then
    if usub32 newTs s.responseTimestamp > 750 then
      if s.responseBitIndex < 32 then
        { s with response := ((s.response <<< 1) % 2 ^ 32) ||| (if lineLevel then 0 else 1),
                 responseTimestamp := newTs,
                 responseBitIndex := s.responseBitIndex + 1 }
      else
        { s with status := OpenThermStatus.RESPONSE_READY, responseTimestamp := newTs }
    else s
  else s

/-- OpenTherm::process as a pure transition: `newTs` is the micros()
reading. The second component is the completion-notification
invocation performed during the call (argument pair of the
processResponseCallback), `none` when the callback is not invoked. -/
def process (s : OTState) (newTs : Nat) : OTState × Option (Nat × OpenThermResponseStatus) :=
  let st := s.status
  let ts := s.responseTimestamp
  if st = OpenThermStatus.READY then (s, none)
  else if st ≠ OpenThermStatus.NOT_INITIALIZED ∧ usub32 newTs ts > 800000 then
    ({ s with responseStatus := OpenThermResponseStatus.TIMEOUT,
              status := OpenThermStatus.READY },
     some (s.response, OpenThermResponseStatus.TIMEOUT))
  else if st = OpenThermStatus.RESPONSE_INVALID then
    ({ s with responseStatus := OpenThermResponseStatus.INVALID,
              status := OpenThermStatus.DELAY },
     some (s.response, OpenThermResponseStatus.INVALID))
  else if st = OpenThermStatus.RESPONSE_READY then
    let rs := if isValidResponse s.response then OpenThermResponseStatus.SUCCESS
              else OpenThermResponseStatus.INVALID
    ({ s with responseStatus := rs, status := OpenThermStatus.DELAY }, some (s.response, rs))
  else if st = OpenThermStatus.DELAY then
    if usub32 newTs ts > 100000 then ({ s with status := OpenThermStatus.READY }, none)
    else (s, none)
  else (s, none)

/-- OpenTherm::sendRequestAync as a pure transition: returns the
success flag and the new state. `tsAfterSend` is the micros() reading
taken right after the blocking transmission of the request bits.
On a non-READY state it fails without touching the state. -/
def sendRequestAync (s : OTState) (request : Nat) (tsAfterSend : Nat) : Bool × OTState :=
  if s.status = OpenThermStatus.READY then
    (true, { s with status := OpenThermStatus.RESPONSE_WAITING,
                    response := 0,
                    responseStatus := OpenThermResponseStatus.NONE,
                    responseTimestamp := tsAfterSend })
  else (false, s)

/-- Polling loop of OpenTherm::sendRequest: repeatedly calls process
until READY, consuming one micros() reading per iteration from
`ticks`; `none` models exhausting the supplied readings before the
loop exits. -/
def sendRequestLoop (s : OTState) : List Nat → Option (Nat × OTState)
  | [] => if s.status = OpenThermStatus.READY then some (s.response, s) else none
  | t :: ts =>
    if s.status = OpenThermStatus.READY then some (s.response, s)
    else sendRequestLoop (process s t).1 ts

/-- OpenTherm::sendRequest: arms the exchange with sendRequestAync
and, on success, polls with process until READY; on a rejected send
it returns the zero frame immediately. -/
def sendRequest (s : OTState) (request tsAfterSend : Nat) (ticks : List Nat) : Option (Nat × OTState) :=
  match sendRequestAync s request tsAfterSend with
  | (false, s1) => some (0, s1)
  | (true, s1) => sendRequestLoop s1 ticks

/-- Runs process over a list of micros() readings, collecting every
completion-notification invocation in order. -/
def processTrace (s : OTState) : List Nat → OTState × List (Nat × OpenThermResponseStatus)
  | [] => (s, [])
  | t :: ts =>
    let step := process s t
    let rest := processTrace step.1 ts
    (rest.1, match step.2 with
             | none => rest.2
             | some e => e :: rest.2)

/-- Fuel irrelevance for `popcountAux`: any fuel at least the argument
computes the same value. -/
theorem popcountAux_congr : ∀ fuel1 fuel2 n : Nat, n ≤ fuel1 → n ≤ fuel2 →
    popcountAux fuel1 n = popcountAux fuel2 n := by
  intro fuel1
  induction fuel1 with
  | zero =>
    intro fuel2 n h1 _
    have hn : n = 0 := by omega
    subst hn
    cases fuel2 <;> simp [popcountAux]
  | succ fuel ih =>
    intro fuel2 n h1 h2
    match fuel2 with
    | 0 =>
      have hn : n = 0 := by omega
      subst hn
      simp [popcountAux]
    | fuel2 + 1 =>
      by_cases hn : n = 0
      · subst hn; simp [popcountAux]
      · have hdiv : n / 2 < n := Nat.div_lt_self (by omega) (by omega)
        simp only [popcountAux, if_neg hn]
        rw [ih fuel2 (n / 2) (by omega) (by omega)]

/-- Unfolding equation of `popcount` matching one loop iteration. -/
theorem popcount_unfold (n : Nat) : popcount n = n % 2 + popcount (n / 2) := by
  unfold popcount
  match n with
  | 0 => simp [popcountAux]
  | m + 1 =>
    have hdiv : (m + 1) / 2 < m + 1 := Nat.div_lt_self (by omega) (by omega)
    simp only [popcountAux, if_neg (Nat.succ_ne_zero m)]
    rw [popcountAux_congr m ((m + 1) / 2) ((m + 1) / 2) (by omega) le_rfl]

theorem popcount_zero : popcount 0 = 0 := rfl

/-- Population count splits over a sum whose summands occupy disjoint
bit ranges. -/
theorem popcount_add_two_pow_mul : ∀ k a b : Nat, a < 2 ^ k →
    popcount (a + 2 ^ k * b) = popcount a + popcount b := by
  intro k
  induction k with
  | zero =>
    intro a b h
    have ha : a = 0 := by omega
    subst ha
    simp [popcount_zero]
  | succ k ih =>
    intro a b h
    have hsplit : a + 2 ^ (k + 1) * b = a % 2 + 2 * (a / 2 + 2 ^ k * b) := by
      have e : 2 ^ (k + 1) * b = 2 * (2 ^ k * b) := by
        rw [pow_succ]
        ring
      rw [e]
      omega
    have hdivlt : a / 2 < 2 ^ k := by
      rw [pow_succ] at h
      omega
    rw [hsplit, popcount_unfold, popcount_unfold a]
    have e1 : (a % 2 + 2 * (a / 2 + 2 ^ k * b)) % 2 = a % 2 := by omega
    have e2 : (a % 2 + 2 * (a / 2 + 2 ^ k * b)) / 2 = a / 2 + 2 ^ k * b := by omega
    rw [e1, e2, ih (a / 2) b hdivlt]
    omega

/-- The parity loop computes the parity of the population count: the
byte accumulator wraps at 256, which does not disturb parity. -/
theorem parityLoop_mod_two : ∀ fuel f p : Nat, f ≤ fuel →
    parityLoop fuel f p % 2 = (popcount f + p) % 2 := by
  intro fuel
  induction fuel with
  | zero =>
    intro f p h
    have hf : f = 0 := by omega
    subst hf
    simp [parityLoop, popcount_zero]
  | succ fuel ih =>
    intro f p h
    by_cases hf : f = 0
    · subst hf; simp [parityLoop, popcount_zero]
    · have hdiv : f / 2 < f := Nat.div_lt_self (by omega) (by omega)
      simp only [parityLoop, if_neg hf]
      by_cases hb : f % 2 = 1
      · rw [if_pos hb, ih (f / 2) ((p + 1) % 256) (by omega), popcount_unfold f]
        omega
      · rw [if_neg hb, ih (f / 2) p (by omega), popcount_unfold f]
        omega

/-- `parity` reports whether the population count is odd. -/
theorem parity_eq_popcount (f : Nat) : parity f = decide (popcount f % 2 = 1) := by
  have h := parityLoop_mod_two f f 0 le_rfl
  unfold parity
  rw [Nat.and_one_is_mod, decide_eq_decide]
  omega

/-- Bit `i` of a sum `a + 2 ^ k * b` with `a < 2 ^ k` comes from `a`
below position `k` and from `b` at and above it. -/
theorem testBit_add_two_pow_mul (k a b i : Nat) (h : a < 2 ^ k) :
    (a + 2 ^ k * b).testBit i = if i < k then a.testBit i else b.testBit (i - k) := by
  rcases Nat.lt_or_ge i k with hik | hik
  · rw [if_pos hik]
    obtain ⟨d, rfl⟩ : ∃ d, k = i + d + 1 := ⟨k - i - 1, by omega⟩
    rw [Nat.testBit_to_div_mod, Nat.testBit_to_div_mod]
    have e1 : a + 2 ^ (i + d + 1) * b = a + (2 ^ d * b * 2) * 2 ^ i := by
      rw [pow_add, pow_succ]
      ring
    rw [e1, Nat.add_mul_div_right _ _ (Nat.two_pow_pos i), decide_eq_decide]
    omega
  · rw [if_neg (by omega)]
    obtain ⟨d, rfl⟩ : ∃ d, i = k + d := ⟨i - k, by omega⟩
    rw [Nat.testBit_to_div_mod, Nat.testBit_to_div_mod]
    have e1 : (a + 2 ^ k * b) / 2 ^ (k + d) = (a + 2 ^ k * b) / 2 ^ k / 2 ^ d := by
      rw [Nat.div_div_eq_div_mul, pow_add]
    have e2 : (a + 2 ^ k * b) / 2 ^ k = a / 2 ^ k + b := by
      rw [mul_comm, Nat.add_mul_div_right _ _ (Nat.two_pow_pos k)]
    rw [e1, e2, Nat.div_eq_of_lt h]
    simp

/-- Bits of `2 ^ k * b` below position `k` are clear; above, they are
the bits of `b`. -/
theorem testBit_two_pow_mul (k b i : Nat) :
    (2 ^ k * b).testBit i = if i < k then false else b.testBit (i - k) := by
  have h := testBit_add_two_pow_mul k 0 b i (Nat.two_pow_pos k)
  simpa using h

/-- Bitwise or of values in disjoint bit ranges is addition. -/
theorem lor_two_pow_mul_eq_add (k a b : Nat) (h : a < 2 ^ k) :
    a ||| 2 ^ k * b = a + 2 ^ k * b := by
  apply Nat.eq_of_testBit_eq
  intro i
  rw [Nat.testBit_lor, testBit_add_two_pow_mul k a b i h, testBit_two_pow_mul]
  rcases Nat.lt_or_ge i k with hik | hik
  · simp [hik]
  · have ha : a.testBit i = false :=
      Nat.testBit_eq_false_of_lt (lt_of_lt_of_le h (Nat.pow_le_pow_right (by omega) hik))
    simp [Nat.not_lt.mpr hik, ha]

/-- Closed form of `buildRequest`: the truncated payload in bits 0-15,
the identifier in bits 16-23, the WRITE_DATA flag at bit 28 and the
parity bit at bit 31. -/
theorem buildRequest_eq (type : OpenThermMessageType) (id data : Nat) (hid : id < 256) :
    buildRequest type id data =
      data % 2 ^ 16 + 2 ^ 16 * id + 2 ^ 28 * writeBit type +
        2 ^ 31 * (if parity (data % 2 ^ 16 + 2 ^ 16 * id + 2 ^ 28 * writeBit type) then 1 else 0) := by
  have hD : data % 2 ^ 16 < 2 ^ 16 := Nat.mod_lt _ (by norm_num)
  have hb : writeBit type ≤ 1 := by
    unfold writeBit
    split <;> omega
  have hshift : (id <<< 16) % 2 ^ 32 = 2 ^ 16 * id := by
    rw [Nat.shiftLeft_eq, Nat.mod_eq_of_lt (by omega)]
    ring
  have h28 : (1 : Nat) <<< 28 = 2 ^ 28 := by
    rw [Nat.shiftLeft_eq]
    ring
  have h31 : (1 : Nat) <<< 31 = 2 ^ 31 := by
    rw [Nat.shiftLeft_eq]
    ring
  have hcore : (if type = OpenThermMessageType.WRITE_DATA then data % 2 ^ 16 ||| 1 <<< 28
        else data % 2 ^ 16) ||| (id <<< 16) % 2 ^ 32
      = data % 2 ^ 16 + 2 ^ 16 * id + 2 ^ 28 * writeBit type := by
    by_cases ht : type = OpenThermMessageType.WRITE_DATA
    · rw [if_pos ht, writeBit, if_pos ht, hshift, h28]
      have h1 : data % 2 ^ 16 ||| 2 ^ 28 = data % 2 ^ 16 ||| 2 ^ 28 * 1 := by
        rw [Nat.mul_one]
      rw [h1, Nat.lor_assoc, Nat.lor_comm (2 ^ 28 * 1) (2 ^ 16 * id)]
      have h2 : 2 ^ 16 * id ||| 2 ^ 28 * 1 = 2 ^ 16 * id + 2 ^ 28 * 1 :=
        lor_two_pow_mul_eq_add 28 (2 ^ 16 * id) 1 (by omega)
      rw [h2]
      have h3 : 2 ^ 16 * id + 2 ^ 28 * 1 = 2 ^ 16 * (id + 2 ^ 12) := by ring
      rw [h3, lor_two_pow_mul_eq_add 16 _ _ hD]
      ring
    · rw [if_neg ht, writeBit, if_neg ht, hshift, lor_two_pow_mul_eq_add 16 _ _ hD]
      ring
  unfold buildRequest
  simp only [hcore]
  by_cases hp : parity (data % 2 ^ 16 + 2 ^ 16 * id + 2 ^ 28 * writeBit type)
  · rw [if_pos hp, if_pos hp, h31]
    have h4 : data % 2 ^ 16 + 2 ^ 16 * id + 2 ^ 28 * writeBit type ||| 2 ^ 31 * 1
        = data % 2 ^ 16 + 2 ^ 16 * id + 2 ^ 28 * writeBit type + 2 ^ 31 * 1 :=
      lor_two_pow_mul_eq_add 31 _ 1 (by omega)
    rw [Nat.mul_one] at h4
    rw [h4]
    ring
  · rw [if_neg hp, if_neg hp]
    omega

/-- C5: every frame built by buildRequest has even population-count
parity over all 32 bits, equivalently its bit 31 equals the odd
parity of the remaining 31 bits. -/
theorem spec_C5 (type : OpenThermMessageType) (id data : Nat) (hid : id < 256) :
    parity (buildRequest type id data) = false ∧
    (buildRequest type id data).testBit 31 = parity (buildRequest type id data % 2 ^ 31) := by
  have heq := buildRequest_eq type id data hid
  have hD : data % 2 ^ 16 < 2 ^ 16 := Nat.mod_lt _ (by norm_num)
  have hb : writeBit type ≤ 1 := by
    unfold writeBit
    split <;> omega
  have hSlt : data % 2 ^ 16 + 2 ^ 16 * id + 2 ^ 28 * writeBit type < 2 ^ 31 := by omega
  cases hp : parity (data % 2 ^ 16 + 2 ^ 16 * id + 2 ^ 28 * writeBit type) with
  | false =>
    have hbr : buildRequest type id data
        = data % 2 ^ 16 + 2 ^ 16 * id + 2 ^ 28 * writeBit type := by
      rw [heq, hp]
      simp
    rw [hbr]
    refine ⟨hp, ?_⟩
    rw [Nat.mod_eq_of_lt hSlt, hp, Nat.testBit_eq_false_of_lt hSlt]
  | true =>
    have hbr : buildRequest type id data
        = data % 2 ^ 16 + 2 ^ 16 * id + 2 ^ 28 * writeBit type + 2 ^ 31 * 1 := by
      rw [heq, hp]
      simp
    have hp1 : popcount (data % 2 ^ 16 + 2 ^ 16 * id + 2 ^ 28 * writeBit type) % 2 = 1 := by
      rw [parity_eq_popcount] at hp
      simpa using hp
    constructor
    · rw [hbr, parity_eq_popcount, popcount_add_two_pow_mul 31 _ 1 hSlt]
      have hone : popcount 1 = 1 := rfl
      rw [hone, decide_eq_false_iff_not]
      omega
    · have hmod : (data % 2 ^ 16 + 2 ^ 16 * id + 2 ^ 28 * writeBit type + 2 ^ 31 * 1) % 2 ^ 31
          = data % 2 ^ 16 + 2 ^ 16 * id + 2 ^ 28 * writeBit type := by omega
      rw [hbr, hmod, hp, testBit_add_two_pow_mul 31 _ 1 31 hSlt]
      simp

/-- C6: buildRequest truncates the payload to bits 0-15, places the
identifier in bits 16-23 and leaves bits 24-27 clear. -/
theorem spec_C6 (type : OpenThermMessageType) (id data : Nat) (hid : id < 256) :
    buildRequest type id data % 2 ^ 16 = data % 2 ^ 16 ∧
    buildRequest type id data / 2 ^ 16 % 2 ^ 8 = id % 2 ^ 8 ∧
    buildRequest type id data / 2 ^ 24 % 2 ^ 4 = 0 := by
  have hb : writeBit type ≤ 1 := by
    unfold writeBit
    split <;> omega
  obtain ⟨p, hple, hpeq⟩ : ∃ p, p ≤ 1 ∧ buildRequest type id data
      = data % 2 ^ 16 + 2 ^ 16 * id + 2 ^ 28 * writeBit type + 2 ^ 31 * p :=
    ⟨if parity (data % 2 ^ 16 + 2 ^ 16 * id + 2 ^ 28 * writeBit type) then 1 else 0,
     by split <;> omega, buildRequest_eq type id data hid⟩
  rw [hpeq]
  omega

/-- Witness for C5 at WRITE_DATA, id 1 (TSet), payload 0x2A80. -/
theorem spec_C5_witness :
    parity (buildRequest OpenThermMessageType.WRITE_DATA 1 0x2A80) = false ∧
    (buildRequest OpenThermMessageType.WRITE_DATA 1 0x2A80).testBit 31
      = parity (buildRequest OpenThermMessageType.WRITE_DATA 1 0x2A80 % 2 ^ 31) :=
  spec_C5 OpenThermMessageType.WRITE_DATA 1 0x2A80 (by omega)

/-- Witness for C6 at WRITE_DATA, id 1, an oversized payload. -/
theorem spec_C6_witness :
    buildRequest OpenThermMessageType.WRITE_DATA 1 0x12A80 % 2 ^ 16 = 0x12A80 % 2 ^ 16 ∧
    buildRequest OpenThermMessageType.WRITE_DATA 1 0x12A80 / 2 ^ 16 % 2 ^ 8 = 1 % 2 ^ 8 ∧
    buildRequest OpenThermMessageType.WRITE_DATA 1 0x12A80 / 2 ^ 24 % 2 ^ 4 = 0 :=
  spec_C6 OpenThermMessageType.WRITE_DATA 1 0x12A80 (by omega)

/-- Characterization of `isValidResponse` on 32-bit frames: even
population count and an acknowledgment kind in bits 30-28. -/
theorem isValidResponse_iff (f : Nat) (hf : f < 2 ^ 32) :
    isValidResponse f = true ↔
      popcount f % 2 = 0 ∧ (f / 2 ^ 28 % 8 = 4 ∨ f / 2 ^ 28 % 8 = 5) := by
  have hmsg : ((f <<< 1) % 2 ^ 32) >>> 29 = f / 2 ^ 28 % 8 := by
    rw [Nat.shiftLeft_eq, Nat.shiftRight_eq_div_pow, pow_one]
    omega
  unfold isValidResponse
  rw [parity_eq_popcount]
  simp only [hmsg, OpenThermMessageType.code]
  by_cases hp : popcount f % 2 = 1
  · simp [hp]
  · simp [hp]
    omega

/-- C4: isValidResponse holds iff the 32-bit population count is even
and the kind field holds READ_ACK or WRITE_ACK; flipping the parity
bit of a valid acknowledgment invalidates it, and an even-parity
frame with a request kind (READ_DATA or WRITE_DATA) is invalid. -/
theorem spec_C4 (f : Nat) (hf : f < 2 ^ 32) :
    (isValidResponse f = true ↔
      popcount f % 2 = 0 ∧
        (f / 2 ^ 28 % 8 = OpenThermMessageType.READ_ACK.code ∨
          f / 2 ^ 28 % 8 = OpenThermMessageType.WRITE_ACK.code)) ∧
    (∀ g : Nat, g < 2 ^ 32 → g % 2 ^ 31 = f % 2 ^ 31 → g ≠ f →
      isValidResponse f = true → isValidResponse g = false) ∧
    (popcount f % 2 = 0 →
      (f / 2 ^ 28 % 8 = OpenThermMessageType.READ_DATA.code ∨
        f / 2 ^ 28 % 8 = OpenThermMessageType.WRITE_DATA.code) →
      isValidResponse f = false) := by
  have hsplitpop : ∀ x : Nat, x < 2 ^ 32 → popcount x = popcount (x % 2 ^ 31) + x / 2 ^ 31 := by
    intro x hx
    have hdecomp : x = x % 2 ^ 31 + 2 ^ 31 * (x / 2 ^ 31) := by omega
    have hone : x / 2 ^ 31 ≤ 1 := by omega
    conv =>
      lhs
      rw [hdecomp]
    rw [popcount_add_two_pow_mul 31 _ _ (by omega)]
    interval_cases h : x / 2 ^ 31
    · rw [popcount_zero]
    · rfl
  refine ⟨?_, ?_, ?_⟩
  · simpa only [OpenThermMessageType.code] using isValidResponse_iff f hf
  · intro g hg hlow hne hvf
    have hfok := (isValidResponse_iff f hf).mp hvf
    have hdivne : g / 2 ^ 31 ≠ f / 2 ^ 31 := by omega
    have hpopg : popcount g % 2 = 1 := by
      have h1 := hsplitpop f hf
      have h2 := hsplitpop g hg
      rw [hlow] at h2
      omega
    cases hvg : isValidResponse g with
    | false => rfl
    | true =>
      have := (isValidResponse_iff g hg).mp hvg
      omega
  · intro hpop hkind
    simp only [OpenThermMessageType.code] at hkind
    cases hv : isValidResponse f with
    | false => rfl
    | true =>
      have := (isValidResponse_iff f hf).mp hv
      omega

/-- Witness for C4: a READ_ACK frame with even parity is valid, and
the same frame with bit 31 flipped is not. -/
theorem spec_C4_witness :
    isValidResponse 0xC0000003 = true ∧ isValidResponse 0x40000003 = false := by
  have h1 : isValidResponse 0xC0000003 = true :=
    (spec_C4 0xC0000003 (by norm_num)).1.mpr ⟨by decide, Or.inl (by decide)⟩
  exact ⟨h1, (spec_C4 0xC0000003 (by norm_num)).2.1 0x40000003 (by norm_num)
    (by decide) (by decide) h1⟩

/-- C10: an invalid response frame decodes to temperature 0, not to
its fixed-point payload. -/
theorem spec_C10 (f : Nat) (hf : f < 2 ^ 32) (hv : isValidResponse f = false) :
    getTemperature f = 0 := by
  unfold getTemperature
  rw [hv]
  simp

/-- Witness for C10: frame 1 is invalid (odd parity), its raw
fixed-point payload is 1/256, yet getTemperature yields 0. -/
theorem spec_C10_witness :
    isValidResponse 1 = false ∧ getTemperature 1 = 0 ∧ getFloat 1 ≠ 0 := by
  refine ⟨by decide, spec_C10 1 (by norm_num) (by decide), ?_⟩
  norm_num [getFloat, getUInt]

/-- Counterexample for C3 as stated: the boiler-status request with
only central heating enabled has payload low byte 0 (the enable flags
sit in the high byte), and a response with payload low byte 00000011
does not report hot water active (bit 2 is clear in 00000011). -/
theorem spec_C3_counterexample :
    buildSetBoilerStatusRequest true false false false false % 2 ^ 8 ≠ 1 ∧
    isHotWaterEnabled 0x40000003 = false ∧ 0x40000003 % 2 ^ 8 = 3 := by
  decide

/-- C3 (amended): the boiler-status request with only central heating
enabled has kind READ_DATA, data-point id Status, payload high byte
00000001 and payload low byte 0; a response frame with payload low
byte 00000110 reports central-heating-active and hot-water-active,
while low byte 00000011 reports fault and central-heating-active but
not hot-water-active. -/
theorem spec_C3_amended :
    getMessageType (buildSetBoilerStatusRequest true false false false false)
      = OpenThermMessageType.READ_DATA ∧
    buildSetBoilerStatusRequest true false false false false / 2 ^ 16 % 2 ^ 8
      = OpenThermMessageID.Status ∧
    buildSetBoilerStatusRequest true false false false false / 2 ^ 8 % 2 ^ 8 = 1 ∧
    buildSetBoilerStatusRequest true false false false false % 2 ^ 8 = 0 ∧
    (∀ r : Nat, r % 2 ^ 8 = 6 →
      isCentralHeatingEnabled r = true ∧ isHotWaterEnabled r = true) ∧
    (∀ r : Nat, r % 2 ^ 8 = 3 →
      isFault r = true ∧ isCentralHeatingEnabled r = true ∧ isHotWaterEnabled r = false) := by
  have hbit : ∀ r i : Nat, r &&& 2 ^ i = if r / 2 ^ i % 2 = 1 then 2 ^ i else 0 := by
    intro r i
    rw [Nat.and_two_pow, Nat.testBit_to_div_mod]
    by_cases h : r / 2 ^ i % 2 = 1 <;> simp [h]
  refine ⟨by decide, by decide, by decide, by decide, ?_, ?_⟩
  · intro r hr
    constructor
    · have h := hbit r 1
      norm_num at h
      simp only [isCentralHeatingEnabled, h]
      have : r / 2 % 2 = 1 := by omega
      simp [this]
    · have h := hbit r 2
      norm_num at h
      simp only [isHotWaterEnabled, h]
      have : r / 4 % 2 = 1 := by omega
      simp [this]
  · intro r hr
    refine ⟨?_, ?_, ?_⟩
    · have h := hbit r 0
      norm_num at h
      simp only [isFault, h]
      have : r % 2 = 1 := by omega
      simp [this]
    · have h := hbit r 1
      norm_num at h
      simp only [isCentralHeatingEnabled, h]
      have : r / 2 % 2 = 1 := by omega
      simp [this]
    · have h := hbit r 2
      norm_num at h
      simp only [isHotWaterEnabled, h]
      have : r / 4 % 2 = 0 := by omega
      simp [this]

/-- Witness for C3 (amended) at the concrete responses 6 and 3. -/
theorem spec_C3_amended_witness :
    isCentralHeatingEnabled 6 = true ∧ isHotWaterEnabled 6 = true ∧
    isHotWaterEnabled 3 = false := by
  refine ⟨(spec_C3_amended.2.2.2.2.1 6 (by norm_num)).1,
    (spec_C3_amended.2.2.2.2.1 6 (by norm_num)).2,
    (spec_C3_amended.2.2.2.2.2 3 (by norm_num)).2.2⟩

/-- C7: in the RECEIVING state an edge within 750 microseconds of the
last transition is ignored; a later edge below bit count 32 shifts in
the complement of the line level and stamps the time; at bit count 32
the edge is the stop bit and yields FRAME_READY regardless of the
line level. -/
theorem spec_C7 (s : OTState) (newTs : Nat) (lineLevel : Bool)
    (hst : s.status = OpenThermStatus.RESPONSE_RECEIVING) :
    (usub32 newTs s.responseTimestamp ≤ 750 → handleInterrupt s newTs lineLevel = s) ∧
    (usub32 newTs s.responseTimestamp > 750 → s.responseBitIndex < 32 →
      handleInterrupt s newTs lineLevel =
        { s with response := ((s.response <<< 1) % 2 ^ 32) ||| (if lineLevel then 0 else 1),
                 responseTimestamp := newTs,
                 responseBitIndex := s.responseBitIndex + 1 }) ∧
    (usub32 newTs s.responseTimestamp > 750 → 32 ≤ s.responseBitIndex →
      handleInterrupt s newTs lineLevel =
        { s with status := OpenThermStatus.RESPONSE_READY, responseTimestamp := newTs }) := by
  refine ⟨?_, ?_, ?_⟩
  · intro h
    have hc : ¬ (usub32 newTs s.responseTimestamp > 750) := by omega
    simp [handleInterrupt, hst, hc]
  · intro h h32
    simp [handleInterrupt, hst, h, h32]
  · intro h h32
    have hc : ¬ (s.responseBitIndex < 32) := by omega
    simp [handleInterrupt, hst, h, hc]

/-- Witness for C7: a data-bit edge at count 3 and a stop-bit edge at
count 32, both 1000 microseconds after the previous transition. -/
theorem spec_C7_witness :
    handleInterrupt ⟨OpenThermStatus.RESPONSE_RECEIVING, 5, OpenThermResponseStatus.NONE, 1000, 3⟩
        2000 true
      = ⟨OpenThermStatus.RESPONSE_RECEIVING, 10, OpenThermResponseStatus.NONE, 2000, 4⟩ ∧
    handleInterrupt ⟨OpenThermStatus.RESPONSE_RECEIVING, 5, OpenThermResponseStatus.NONE, 1000, 32⟩
        2000 true
      = ⟨OpenThermStatus.RESPONSE_READY, 5, OpenThermResponseStatus.NONE, 2000, 32⟩ :=
  ⟨(spec_C7 _ 2000 true rfl).2.1 (by decide) (by decide),
   (spec_C7 _ 2000 true rfl).2.2 (by decide) (by decide)⟩

/-- C8: a send while the session is not READY is rejected without any
state change, and the blocking send then returns the zero frame. -/
theorem spec_C8 (s : OTState) (request tsAfterSend : Nat) (ticks : List Nat)
    (h : s.status ≠ OpenThermStatus.READY) :
    sendRequestAync s request tsAfterSend = (false, s) ∧
    sendRequest s request tsAfterSend ticks = some (0, s) := by
  have ha : sendRequestAync s request tsAfterSend = (false, s) := by
    unfold sendRequestAync
    rw [if_neg h]
  refine ⟨ha, ?_⟩
  unfold sendRequest
  rw [ha]

/-- Witness for C8: a send during the quiet period is rejected. -/
theorem spec_C8_witness :
    sendRequestAync ⟨OpenThermStatus.DELAY, 5, OpenThermResponseStatus.SUCCESS, 100, 0⟩ 7 200
      = (false, ⟨OpenThermStatus.DELAY, 5, OpenThermResponseStatus.SUCCESS, 100, 0⟩) ∧
    sendRequest ⟨OpenThermStatus.DELAY, 5, OpenThermResponseStatus.SUCCESS, 100, 0⟩ 7 200 [300]
      = some (0, ⟨OpenThermStatus.DELAY, 5, OpenThermResponseStatus.SUCCESS, 100, 0⟩) :=
  spec_C8 _ 7 200 [300] (by decide)

/-- Counterexample for C2 as stated: in the NOT_INITIALIZED state,
process is a no-op even when more than 800000 microseconds have
elapsed; no TIMEOUT outcome, no notification, no transition to
READY. -/
theorem spec_C2_counterexample :
    process ⟨OpenThermStatus.NOT_INITIALIZED, 0, OpenThermResponseStatus.NONE, 0, 0⟩ 900000
      = (⟨OpenThermStatus.NOT_INITIALIZED, 0, OpenThermResponseStatus.NONE, 0, 0⟩, none) ∧
    usub32 900000 0 > 800000 := by
  decide

/-- C2 (amended): for every session state other than READY and
NOT_INITIALIZED, a process call more than 800000 microseconds after
the recorded timestamp sets outcome TIMEOUT, fires the completion
notification with the current response frame, and returns to READY. -/
theorem spec_C2_amended (s : OTState) (newTs : Nat)
    (h1 : s.status ≠ OpenThermStatus.READY)
    (h2 : s.status ≠ OpenThermStatus.NOT_INITIALIZED)
    (h3 : usub32 newTs s.responseTimestamp > 800000) :
    process s newTs =
      ({ s with responseStatus := OpenThermResponseStatus.TIMEOUT,
                status := OpenThermStatus.READY },
       some (s.response, OpenThermResponseStatus.TIMEOUT)) := by
  simp only [process]
  rw [if_neg h1, if_pos (And.intro h2 h3)]

/-- Witness for C2 (amended): a timed-out RESPONSE_WAITING session. -/
theorem spec_C2_amended_witness :
    process ⟨OpenThermStatus.RESPONSE_WAITING, 7, OpenThermResponseStatus.NONE, 0, 0⟩ 900000
      = (⟨OpenThermStatus.READY, 7, OpenThermResponseStatus.TIMEOUT, 0, 0⟩,
         some (7, OpenThermResponseStatus.TIMEOUT)) :=
  spec_C2_amended _ 900000 (by decide) (by decide) (by decide)

/-- Counterexample for C9 as stated: a process call on FRAME_READY
(RESPONSE_READY) more than 800000 microseconds after the recorded
timestamp goes straight to READY, skipping the quiet period. -/
theorem spec_C9_counterexample :
    (process ⟨OpenThermStatus.RESPONSE_READY, 0, OpenThermResponseStatus.NONE, 0, 0⟩ 800001).1.status
      ≠ OpenThermStatus.DELAY ∧
    (process ⟨OpenThermStatus.RESPONSE_READY, 0, OpenThermResponseStatus.NONE, 0, 0⟩ 800001).1.status
      = OpenThermStatus.READY := by
  decide

/-- C9 (amended): a process call on FRAME_INVALID or FRAME_READY
within the 800000-microsecond deadline enters the quiet period
(DELAY); from the quiet period, process reaches READY exactly when
more than 100000 microseconds have elapsed, and the edge callback
never leaves the quiet period. -/
theorem spec_C9_amended (s : OTState) (newTs : Nat) (lineLevel : Bool) :
    ((s.status = OpenThermStatus.RESPONSE_INVALID ∨ s.status = OpenThermStatus.RESPONSE_READY) →
      usub32 newTs s.responseTimestamp ≤ 800000 →
      (process s newTs).1.status = OpenThermStatus.DELAY) ∧
    (s.status = OpenThermStatus.DELAY →
      ((process s newTs).1.status = OpenThermStatus.READY ↔
        usub32 newTs s.responseTimestamp > 100000)) ∧
    (s.status = OpenThermStatus.DELAY → handleInterrupt s newTs lineLevel = s) := by
  refine ⟨?_, ?_, ?_⟩
  · intro hst hle
    have hc : ¬ (usub32 newTs s.responseTimestamp > 800000) := by omega
    rcases hst with hst | hst
    · simp [process, hst, hc]
    · simp [process, hst, hc]
  · intro hst
    by_cases h8 : usub32 newTs s.responseTimestamp > 800000
    · simp only [process, hst]
      simp [h8]
      omega
    · by_cases h1 : usub32 newTs s.responseTimestamp > 100000
      · simp [process, hst, h8, h1]
      · simp [process, hst, h8, h1]
  · intro hst
    simp [handleInterrupt, hst]

/-- Witness for C9 (amended): an invalid-frame completion enters the
quiet period; 200000 microseconds later the session is READY; stray
edges during the quiet period change nothing. -/
theorem spec_C9_amended_witness :
    (process ⟨OpenThermStatus.RESPONSE_INVALID, 0, OpenThermResponseStatus.NONE, 1000, 0⟩ 2000).1.status
      = OpenThermStatus.DELAY ∧
    (process ⟨OpenThermStatus.DELAY, 0, OpenThermResponseStatus.INVALID, 1000, 0⟩ 201000).1.status
      = OpenThermStatus.READY ∧
    handleInterrupt ⟨OpenThermStatus.DELAY, 0, OpenThermResponseStatus.INVALID, 1000, 0⟩ 2000 true
      = ⟨OpenThermStatus.DELAY, 0, OpenThermResponseStatus.INVALID, 1000, 0⟩ :=
  ⟨(spec_C9_amended _ 2000 true).1 (Or.inl rfl) (by decide),
   ((spec_C9_amended _ 201000 true).2.1 rfl).mpr (by decide),
   (spec_C9_amended _ 2000 true).2.2 rfl⟩

/-- Counterexample for C1 as stated: one exchange (send, invalid
start edge, completion) is reported once by process, yet a second
process call made more than 800000 microseconds after the recorded
timestamp fires a second notification (a spurious TIMEOUT) for the
same completed exchange, with no new send in between. -/
theorem spec_C1_counterexample :
    (sendRequestAync ⟨OpenThermStatus.READY, 0, OpenThermResponseStatus.NONE, 0, 0⟩ 0 100).1
      = true ∧
    (process (handleInterrupt
        (sendRequestAync ⟨OpenThermStatus.READY, 0, OpenThermResponseStatus.NONE, 0, 0⟩ 0 100).2
        200 false) 300).2 = some (0, OpenThermResponseStatus.INVALID) ∧
    (process (process (handleInterrupt
        (sendRequestAync ⟨OpenThermStatus.READY, 0, OpenThermResponseStatus.NONE, 0, 0⟩ 0 100).2
        200 false) 300).1 801200).2 = some (0, OpenThermResponseStatus.TIMEOUT) := by
  decide

/-- Once the session is READY, process never changes it or fires a
notification, over any sequence of micros() readings. -/
theorem processTrace_ready (s : OTState) (h : s.status = OpenThermStatus.READY) :
    ∀ ticks : List Nat, processTrace s ticks = (s, []) := by
  intro ticks
  induction ticks with
  | nil => rfl
  | cons t ts ih =>
    have hp : process s t = (s, none) := by
      simp only [process]
      rw [if_pos h]
    simp only [processTrace]
    rw [hp, ih]

/-- C1 (amended): the completion notification fires only from process
(the edge callback computes no notification), at most once per
process call; after a completed exchange has been notified the
session sits in the quiet period, and as long as every further
process call comes within 800000 microseconds of the recorded
timestamp, no further notification fires for that exchange. -/
theorem spec_C1_amended (s : OTState) (ticks : List Nat) :
    s.status = OpenThermStatus.DELAY →
    (∀ t ∈ ticks, usub32 t s.responseTimestamp ≤ 800000) →
    (processTrace s ticks).2 = [] := by
  induction ticks generalizing s with
  | nil =>
    intro _ _
    rfl
  | cons t ts ih =>
    intro h1 h2
    have ht := h2 t (List.mem_cons_self t ts)
    have hn8 : ¬ (usub32 t s.responseTimestamp > 800000) := by omega
    by_cases h100 : usub32 t s.responseTimestamp > 100000
    · have hp : process s t = ({ s with status := OpenThermStatus.READY }, none) := by
        simp [process, h1, hn8, h100]
      simp only [processTrace]
      rw [hp, processTrace_ready _ rfl ts]
    · have hp : process s t = (s, none) := by
        simp [process, h1, hn8, h100]
      simp only [processTrace]
      rw [hp]
      exact ih s h1 (fun u hu => h2 u (List.mem_cons_of_mem t hu))

/-- Witness for C1 (amended): a quiet-period session ticked twice
within the deadline fires no notification. -/
theorem spec_C1_amended_witness :
    (processTrace ⟨OpenThermStatus.DELAY, 0, OpenThermResponseStatus.INVALID, 200, 0⟩
        [1000, 700000]).2 = [] :=
  spec_C1_amended ⟨OpenThermStatus.DELAY, 0, OpenThermResponseStatus.INVALID, 200, 0⟩
    [1000, 700000] rfl (by decide)

end OT
